import Mathlib

/-!
Verification of the personal-finance-app core against its specification.

The Python source is shallowly embedded: pandas DataFrames become a `Frame` of
column names and rows of `Cell`s, the single dataset file becomes an
`Option FileContent`, the relational store becomes a `Db` record, and each
Python function under `src/` is translated into a Lean function of the same
name.  Exceptions raised by the environment (pandas writer errors, database
commit failures) are modelled by explicit error oracles passed as arguments,
and `try/except` blocks become matches on `Except` values.
-/

namespace PFA

/-- Expected column names for financial CSV files, from src/core/config.py
(REQUIRED_COLUMNS). -/
def REQUIRED_COLUMNS : List String := ["Date", "Desc", "Label", "Category", "Total"]

/-- validate_columns from src/utils/file.py (duplicated verbatim in
src/pages/upload_data.py and src/pages/database.py): compares the list of the
first len(REQUIRED_COLUMNS) column names against REQUIRED_COLUMNS. -/
def validate_columns (columns : List String) : Bool :=
  columns.take REQUIRED_COLUMNS.length == REQUIRED_COLUMNS

/-- A calendar date as carried by a pandas Timestamp (time-of-day is unused by
the code under verification). -/
structure Date where
  year : Nat
  month : Nat
  day : Nat
deriving DecidableEq, Repr

/-- One DataFrame cell: the values the app stores are dates, strings, integers,
or missing (None/NaN). -/
inductive Cell where
  | date (d : Date)
  | str (s : String)
  | int (n : Int)
  | null
deriving DecidableEq, Repr

/-- A pandas DataFrame: named columns and rows of cells. -/
structure Frame where
  columns : List String
  rows : List (List Cell)
deriving DecidableEq, Repr

/-- Content of the dataset file at DATA_PATH.  `empty` is a present file with
zero parseable content (pandas raises EmptyDataError on it); `csv` is a
serialized table. -/
inductive FileContent where
  | empty
  | csv (columns : List String) (rows : List (List Cell))
deriving DecidableEq, Repr

/-- df.to_csv(DATA_PATH, index=False): serializes header and rows. -/
def to_csv (df : Frame) : FileContent := .csv df.columns df.rows

/-- save_data from src/utils/file.py (duplicated in src/pages/upload_data.py
and src/pages/database.py).  `fs` is the current content of DATA_PATH
(`none` = file absent); `writerError` is the error oracle for the to_csv call
inside the try block (`some e` means to_csv raises and the except branch
returns str(e)).  Result: (content of DATA_PATH after the call, returned
string). -/
def save_data (df : Frame) (fs : Option FileContent) (writerError : Option String) :
    Option FileContent × String :=
  match fs with
  | some c => (some c, "File already exists")
  | none =>
    match writerError with
    | some e => (none, e)
    | none => (some (to_csv df), "Success")

/-- get_data from src/utils/file.py: pd.read_csv(DATA_PATH) with
except EmptyDataError -> pd.DataFrame() and
except FileNotFoundError -> pd.DataFrame(columns=REQUIRED_COLUMNS). -/
def get_data (fs : Option FileContent) : Frame :=
  match fs with
  | some .empty => ⟨[], []⟩
  | none => ⟨REQUIRED_COLUMNS, []⟩
  | some (.csv cols rows) => ⟨cols, rows⟩

/-- The Months enum of src/types/months.py as (name, value) pairs, in
declaration order. -/
def monthsEnum : List (String × Nat) :=
  [("All", 0), ("January", 1), ("February", 2), ("March", 3), ("April", 4),
   ("May", 5), ("June", 6), ("July", 7), ("August", 8), ("September", 9),
   ("October", 10), ("November", 11), ("December", 12)]

/-- MonthsJap from src/types/months.py: ("All", "全て") followed by
(name, str(value) + "月") for every month other than All. -/
def MonthsJap : List (String × String) :=
  ("All", "全て") ::
    (monthsEnum.filter (fun p => p.1 != "All")).map
      (fun p => (p.1, toString p.2 ++ "月"))

/-- MONTH_MAP from src/types/months.py: {jap: Months[name].value} over
MonthsJap, then the assignment MONTH_MAP["全て"] = 0 (an overwrite of the
existing key). -/
def MONTH_MAP : List (String × Nat) :=
  let base := MonthsJap.map (fun p => (p.2, (monthsEnum.lookup p.1).getD 0))
  base.map (fun p => if p.1 = "全て" then (p.1, 0) else p)

/-- Python MONTH_MAP.get(month_jap, 0). -/
def monthMapGet (tok : String) : Nat := (MONTH_MAP.lookup tok).getD 0

/-- One cashflow row after load_cashflow_data has coerced the Date column to
datetime: the five schema fields with their runtime types. -/
structure CRow where
  date : Date
  desc : String
  label : String
  category : String
  total : Int
deriving DecidableEq, Repr

/-- filter_by_month from src/pages/cashflow.py.  month_num = 0 returns
df.copy() (content-equal to df); otherwise boolean-mask selection of the rows
whose Date month equals month_num. -/
def filter_by_month (df : List CRow) (month_jap : String) : List CRow :=
  let month_num := monthMapGet month_jap
  if month_num = 0 then df
  else df.filter (fun r => r.date.month == month_num)

/-- pandas DataFrame.copy(): returns a new frame with the same content and does
not modify the receiver.  The pair is (returned frame, receiver after the
call). -/
def pdCopy (df : List CRow) : List CRow × List CRow := (df, df)

/-- pandas boolean-mask selection df[mask]: returns a new frame holding, in
order, the rows where the mask is true; the receiver is not modified.  The
pair is (returned frame, receiver after the call). -/
def pdMaskSelect (df : List CRow) (mask : CRow → Bool) : List CRow × List CRow :=
  (df.filter mask, df)

/-- filter_by_month with the effect on its input made explicit: every pandas
operation the source performs returns both its result and the input frame as
the call leaves it. -/
def filter_by_month_eff (df : List CRow) (month_jap : String) :
    List CRow × List CRow :=
  let month_num := monthMapGet month_jap
  if month_num = 0 then pdCopy df
  else pdMaskSelect df (fun r => r.date.month == month_num)

/-- Cell from an Optional[str] argument (None becomes a missing cell). -/
def optStrCell : Option String → Cell
  | some s => .str s
  | none => .null

/-- Cell from an Optional[int] argument (None becomes a missing cell). -/
def optIntCell : Option Int → Cell
  | some n => .int n
  | none => .null

/-- The Streamlit session state that add_new_row reads and writes:
st.session_state.cashflow_df and the dataset file at DATA_PATH. -/
structure CashflowState where
  cashflow_df : Frame
  dataFile : Option FileContent
deriving DecidableEq, Repr

/-- Cell of `row` under column name `c`, given the row's column list (missing
columns read as NaN). -/
def cellAt (cols : List String) (row : List Cell) (c : String) : Cell :=
  match cols.indexOf? c with
  | some i => row.getD i .null
  | none => .null

/-- Re-express a row over a new column list, filling absent columns with NaN. -/
def reindexRow (oldCols newCols : List String) (row : List Cell) : List Cell :=
  newCols.map (cellAt oldCols row)

/-- pd.concat([a, b], ignore_index=True): with identical column lists the rows
of b follow the rows of a; otherwise pandas aligns on the union of the column
names (a's columns first) and fills absent cells with NaN. -/
def pdConcat (a b : Frame) : Frame :=
  if a.columns = b.columns then ⟨a.columns, a.rows ++ b.rows⟩
  else
    let cols := a.columns ++ b.columns.filter (fun c => ¬ a.columns.contains c)
    ⟨cols, a.rows.map (reindexRow a.columns cols) ++ b.rows.map (reindexRow b.columns cols)⟩

/-- add_new_row from src/pages/cashflow.py: reads the session DataFrame, builds
a one-row frame from dict(zip(REQUIRED_COLUMNS, [date, desc, label, category,
total])), concatenates with ignore_index=True, stores the result back into the
session, and writes it to DATA_PATH with to_csv — unconditionally, not through
save_data. -/
def add_new_row (st : CashflowState) (date : Date) (desc : String)
    (label category : Option String) (total : Option Int) : CashflowState :=
  let df := st.cashflow_df
  let vals : List Cell :=
    [.date date, .str desc, optStrCell label, optStrCell category, optIntCell total]
  let pairs := REQUIRED_COLUMNS.zip vals
  let new_row : Frame := ⟨pairs.map Prod.fst, [pairs.map Prod.snd]⟩
  let updated := pdConcat df new_row
  { cashflow_df := updated, dataFile := some (to_csv updated) }

/-- Categories model from src/core/models.py (id is the autoincrement primary
key, None until the database assigns it). -/
structure Categories where
  id : Option Nat
  name : String
deriving DecidableEq, Repr

/-- Labels model from src/core/models.py. -/
structure Labels where
  id : Option Nat
  name : String
deriving DecidableEq, Repr

/-- Items model from src/core/models.py.  The data columns are id, date,
category, name, label, total; category and label are the nullable foreign
keys to categories.id and labels.id (the `categories`/`labels` relationship
attributes are ORM navigation, not columns, and are omitted). -/
structure Items where
  id : Option Nat
  date : Date
  category : Option Nat
  name : String
  label : Option Nat
  total : Int
deriving DecidableEq, Repr

/-- The relational store: the three tables plus the next autoincrement id. -/
structure Db where
  categories : List Categories
  labels : List Labels
  items : List Items
  nextId : Nat
deriving DecidableEq, Repr

/-- Failure modes of the persistence layer that the session can raise during
add/commit/refresh. -/
inductive PersistError where
  | constraintViolation
  | connectionError
deriving DecidableEq, Repr

/-- Body of the try block of Crud.set_category (src/core/crud.py):
session.add, session.commit (which may raise, modelled by the `err` oracle),
session.refresh (re-reads the committed row, which assigns its id). -/
def set_category_body (db : Db) (name : String) (err : Option PersistError) :
    Except PersistError Db :=
  match err with
  | some e => .error e
  | none =>
    .ok { db with categories := db.categories ++ [⟨some db.nextId, name⟩],
                  nextId := db.nextId + 1 }

/-- Crud.set_category: try the body, return True on success; the
except Exception branch returns False and propagates nothing. -/
def set_category (db : Db) (name : String) (err : Option PersistError) : Bool × Db :=
  match set_category_body db name err with
  | .ok db2 => (true, db2)
  | .error _ => (false, db)

/-- Body of the try block of Crud.set_label (src/core/crud.py). -/
def set_label_body (db : Db) (name : String) (err : Option PersistError) :
    Except PersistError Db :=
  match err with
  | some e => .error e
  | none =>
    .ok { db with labels := db.labels ++ [⟨some db.nextId, name⟩],
                  nextId := db.nextId + 1 }

/-- Crud.set_label: try the body, return True on success, False on any
exception. -/
def set_label (db : Db) (name : String) (err : Option PersistError) : Bool × Db :=
  match set_label_body db name err with
  | .ok db2 => (true, db2)
  | .error _ => (false, db)

/-- Body of the try block of Crud.set_item (src/core/crud.py).  The source
constructs Items(date=date, category_id=category, name=name, label_id=label,
total=total), but the Items model's foreign-key fields are named category and
label, not category_id and label_id; SQLModel table-model constructors skip
validation and silently drop unknown keyword arguments, so the persisted row
carries NULL foreign keys — the supplied category and label ids are
discarded. -/
def set_item_body (db : Db) (date : Date) (category : Nat) (name : String)
    (label : Nat) (total : Int) (err : Option PersistError) :
    Except PersistError Db :=
  match err with
  | some e => .error e
  | none =>
    .ok { db with
          items := db.items ++ [⟨some db.nextId, date, none, name, none, total⟩],
          nextId := db.nextId + 1 }

/-- Crud.set_item: try the body, return True on success, False on any
exception. -/
def set_item (db : Db) (date : Date) (category : Nat) (name : String)
    (label : Nat) (total : Int) (err : Option PersistError) : Bool × Db :=
  match set_item_body db date category name label total err with
  | .ok db2 => (true, db2)
  | .error _ => (false, db)

/-- Crud.delete_item from src/core/crud.py: select(Items).where(Items.id ==
item_id) then .one(), which raises unless exactly one row matches; the bare
except turns any raise into False with nothing deleted.  On the unique match
the row is deleted and committed. -/
def delete_item (db : Db) (item_id : Nat) : Bool × Db :=
  match db.items.filter (fun it => it.id == some item_id) with
  | [it] => (true, { db with items := db.items.erase it })
  | _ => (false, db)

/-- The item-delete route handler from src/routes/items.py.  On a successful
delete it returns Response(status_code=204).  On failure the source evaluates
Response(status_code=404) but does not return it, so the handler function
returns None — modelled by a `none` first component. -/
def route_delete_item (db : Db) (id : Nat) : Option Nat × Db :=
  let r := delete_item db id
  if r.1 then (some 204, r.2)
  else (none, r.2)

/-- FastAPI wraps a handler that returns None in a response with the route's
default status code, which is 200 for this route. -/
def fastapiStatus (handlerResult : Option Nat) : Nat :=
  handlerResult.getD 200

/-! ## Shared concrete inputs for witnesses and counterexamples -/

/-- A sample transaction date, 2023-01-05. -/
def dJan5 : Date := ⟨2023, 1, 5⟩

/-- A sample transaction date, 2024-01-20. -/
def dJan20 : Date := ⟨2024, 1, 20⟩

/-- A sample transaction date, 2023-02-01. -/
def dFeb1 : Date := ⟨2023, 2, 1⟩

/-- A cashflow row with the given date and fixed other fields. -/
def rowOn (d : Date) : CRow := ⟨d, "x", "Expense", "Food", 10⟩

/-! ## Theorems -/

/-- C1: validate_columns returns true iff the table's first 5 column names are
exactly [Date, Desc, Label, Category, Total] in that order; a table with fewer
than 5 columns yields false, any non-trivial reordering of the required
columns yields false, and columns after the first 5 never affect the
result. -/
theorem C1_validate_columns_ordered_match (cols : List String) :
    (validate_columns cols = true ↔ cols.take 5 = REQUIRED_COLUMNS) ∧
    (cols.length < 5 → validate_columns cols = false) ∧
    (cols ≠ REQUIRED_COLUMNS → cols.Perm REQUIRED_COLUMNS → validate_columns cols = false) ∧
    (∀ extra, 5 ≤ cols.length → validate_columns (cols ++ extra) = validate_columns cols) := by
  have hlen : REQUIRED_COLUMNS.length = 5 := by decide
  have hiff : validate_columns cols = true ↔ cols.take 5 = REQUIRED_COLUMNS := by
    simp [validate_columns, hlen]
  refine ⟨hiff, ?_, ?_, ?_⟩
  · intro hshort
    cases hv : validate_columns cols with
    | false => rfl
    | true =>
      exfalso
      have htake := hiff.mp hv
      have : (cols.take 5).length = 5 := by rw [htake, hlen]
      rw [List.length_take] at this
      omega
  · intro hne hperm
    have h5 : cols.length = 5 := by
      have := hperm.length_eq
      omega
    have htake : cols.take 5 = cols := List.take_of_length_le (by omega)
    cases hv : validate_columns cols with
    | false => rfl
    | true =>
      exfalso
      exact hne (htake ▸ hiff.mp hv)
  · intro extra hge
    have htake : (cols ++ extra).take 5 = cols.take 5 :=
      List.take_append_of_le_length hge
    simp [validate_columns, hlen, htake]

/-- Witness for C1 at concrete inputs: a 6-column table with the required
prefix validates; a reordering of the required columns does not; a 4-column
truncation does not. -/
theorem C1_validate_columns_ordered_match_witness :
    validate_columns ["Date", "Desc", "Label", "Category", "Total", "X"] = true ∧
    validate_columns ["Desc", "Date", "Label", "Category", "Total"] = false ∧
    validate_columns ["Date", "Desc", "Label", "Category"] = false :=
  ⟨(C1_validate_columns_ordered_match _).1.mpr (by decide),
   (C1_validate_columns_ordered_match _).2.2.1 (by decide) (by decide),
   (C1_validate_columns_ordered_match _).2.1 (by decide)⟩

/-- C2: save_data on a pre-state where the dataset file exists returns the
string "File already exists" and leaves the file content exactly as it was,
for every table and every writer-error oracle (no write happens on the
conflict branch). -/
theorem C2_save_refuses_overwrite (df : Frame) (c : FileContent)
    (writerError : Option String) :
    save_data df (some c) writerError = (some c, "File already exists") := rfl

/-- C3: get_data on a missing dataset file returns an empty table whose
columns are exactly REQUIRED_COLUMNS; on a present-but-empty file it returns
an empty table with no columns. -/
theorem C3_get_data_missing_and_empty :
    (get_data none).columns = REQUIRED_COLUMNS ∧ (get_data none).rows = [] ∧
    (get_data (some .empty)).columns = [] ∧ (get_data (some .empty)).rows = [] :=
  ⟨rfl, rfl, rfl, rfl⟩

/-- C4: filter_by_month with the all token 全て, or with any token absent from
MONTH_MAP, returns the input table unchanged (identical rows in identical
order, hence identical row count and content). -/
theorem C4_filter_all_or_unrecognized (df : List CRow) (tok : String)
    (h : tok = "全て" ∨ MONTH_MAP.lookup tok = none) :
    filter_by_month df tok = df := by
  have h0 : monthMapGet tok = 0 := by
    rcases h with h | h
    · subst h; rfl
    · simp [monthMapGet, h]
  simp [filter_by_month, h0]

/-- Witness for C4 at concrete inputs: the all token and an unrecognized token
both return the one-row table unchanged. -/
theorem C4_filter_all_or_unrecognized_witness :
    filter_by_month [rowOn dJan5] "全て" = [rowOn dJan5] ∧
    filter_by_month [rowOn dJan5] "Bogus" = [rowOn dJan5] :=
  ⟨C4_filter_all_or_unrecognized _ _ (Or.inl rfl),
   C4_filter_all_or_unrecognized _ _ (Or.inr (by decide))⟩

/-- C5: for a token that MONTH_MAP sends to a non-zero month number m,
filter_by_month keeps exactly the rows whose Date has month component m — the
year plays no part: the result is the filter of the input on month = m, and a
row belongs to it iff it belongs to the input and has month m. -/
theorem C5_filter_recognized_month (df : List CRow) (tok : String) (m : Nat)
    (hm : MONTH_MAP.lookup tok = some m) (h0 : m ≠ 0) :
    filter_by_month df tok = df.filter (fun r => r.date.month == m) ∧
    ∀ r : CRow, r ∈ filter_by_month df tok ↔ r ∈ df ∧ r.date.month = m := by
  have hg : monthMapGet tok = m := by simp [monthMapGet, hm]
  have heq : filter_by_month df tok = df.filter (fun r => r.date.month == m) := by
    simp [filter_by_month, hg, h0]
  refine ⟨heq, fun r => ?_⟩
  rw [heq, List.mem_filter]
  simp

/-- Witness for C5 at the spec's own example: rows dated 2023-01-05,
2024-01-20 and 2023-02-01 filtered by the January token 1月 give exactly the
first two rows, across different years. -/
theorem C5_filter_recognized_month_witness :
    filter_by_month [rowOn dJan5, rowOn dJan20, rowOn dFeb1] "1月" =
      [rowOn dJan5, rowOn dJan20] := by
  rw [(C5_filter_recognized_month [rowOn dJan5, rowOn dJan20, rowOn dFeb1]
        "1月" 1 (by decide) (by decide)).1]
  decide

/-- A stored item row used in concrete states: id 1 in the database. -/
def itemEx : Items := ⟨some 1, dJan5, some 1, "lunch", some 1, 10⟩

/-- A concrete relational store holding exactly one item, with id 1. -/
def dbEx : Db := ⟨[], [], [itemEx], 2⟩

/-- A concrete Streamlit state whose dataset file already exists (a header-only
CSV) and whose session frame has the required columns and no rows. -/
def stEx : CashflowState := ⟨⟨REQUIRED_COLUMNS, []⟩, some (.csv REQUIRED_COLUMNS [])⟩

/-- C6: each CRUD add operation (set_category, set_label, set_item) returns
false whenever the persistence layer fails — for either failure cause — and
the exception stops at the CRUD boundary (the embedding is a total function
into Bool × Db, mirroring the catch-all except); on success each returns true
and the persisted row can be read back from the store.  For set_item the row
read back carries the supplied date, name and total but NULL foreign keys:
the category_id=/label_id= constructor kwargs do not match the model's
category/label fields and are silently dropped. -/
theorem C6_crud_add_error_collapse (db : Db) (nm : String) (e : PersistError)
    (d : Date) (cat lab : Nat) (tot : Int) :
    (set_category db nm (some e)).1 = false ∧
    (set_label db nm (some e)).1 = false ∧
    (set_item db d cat nm lab tot (some e)).1 = false ∧
    ((set_category db nm none).1 = true ∧
      ∃ c, c ∈ (set_category db nm none).2.categories ∧ c.name = nm) ∧
    ((set_label db nm none).1 = true ∧
      ∃ l, l ∈ (set_label db nm none).2.labels ∧ l.name = nm) ∧
    ((set_item db d cat nm lab tot none).1 = true ∧
      ∃ it, it ∈ (set_item db d cat nm lab tot none).2.items ∧
        it.date = d ∧ it.name = nm ∧ it.total = tot ∧
        it.category = none ∧ it.label = none) := by
  refine ⟨rfl, rfl, rfl, ⟨rfl, ?_⟩, ⟨rfl, ?_⟩, ⟨rfl, ?_⟩⟩
  · exact ⟨⟨some db.nextId, nm⟩, by simp [set_category, set_category_body], rfl⟩
  · exact ⟨⟨some db.nextId, nm⟩, by simp [set_label, set_label_body], rfl⟩
  · exact ⟨⟨some db.nextId, d, none, nm, none, tot⟩,
      by simp [set_item, set_item_body], rfl, rfl, rfl, rfl, rfl⟩

/-- C7: delete_item with an id matching no Item row returns false and leaves
the store untouched; with an id matching exactly one row it returns true,
removes that row (the row is gone from the post-state), and keeps every other
row. -/
theorem C7_delete_item_found_notfound (db : Db) (item_id : Nat) :
    (db.items.filter (fun it => it.id == some item_id) = [] →
      delete_item db item_id = (false, db)) ∧
    (∀ it, db.items.filter (fun x => x.id == some item_id) = [it] →
      (delete_item db item_id).1 = true ∧
      (delete_item db item_id).2.items = db.items.erase it ∧
      it ∈ db.items ∧
      it ∉ (delete_item db item_id).2.items ∧
      ∀ x ∈ db.items, x ≠ it → x ∈ (delete_item db item_id).2.items) := by
  constructor
  · intro h
    unfold delete_item
    rw [h]
  · intro it h
    have hd : delete_item db item_id = (true, { db with items := db.items.erase it }) := by
      unfold delete_item
      rw [h]
    have hmemf : it ∈ db.items.filter (fun x => x.id == some item_id) := by
      rw [h]; exact List.mem_singleton_self it
    have hmem : it ∈ db.items := List.mem_of_mem_filter hmemf
    have hpred : (fun x => x.id == some item_id) it = true :=
      (List.mem_filter.mp hmemf).2
    have hcount : db.items.count it = 1 := by
      have h2 : (db.items.filter (fun x => x.id == some item_id)).count it =
          db.items.count it := List.count_filter hpred
      rw [h] at h2
      simpa using h2.symm
    refine ⟨by rw [hd], by rw [hd], hmem, ?_, ?_⟩
    · rw [hd]
      have hc : (db.items.erase it).count it = 0 := by
        rw [List.count_erase_self, hcount]
      exact List.count_eq_zero.mp hc
    · intro x hx hne
      rw [hd]
      exact (List.mem_erase_of_ne hne).mpr hx

/-- Witness for C7 at concrete inputs: in a store with the single item of
id 1, deleting id 2 fails and changes nothing, deleting id 1 succeeds and
empties the table. -/
theorem C7_delete_item_found_notfound_witness :
    delete_item dbEx 2 = (false, dbEx) ∧
    (delete_item dbEx 1).1 = true ∧
    (delete_item dbEx 1).2.items = [] :=
  ⟨(C7_delete_item_found_notfound dbEx 2).1 (by decide),
   ((C7_delete_item_found_notfound dbEx 1).2 itemEx (by decide)).1,
   by rw [((C7_delete_item_found_notfound dbEx 1).2 itemEx (by decide)).2.1]; decide⟩

/-- C8, at the failing input: deleting an id with no matching row makes the
handler fall into the branch that builds Response(404) without returning it,
so the handler returns None and the framework replies with its default status
200 — not 404 as the claim states.  The matching-row half of the claim does
hold: deleting the present id returns Response(204). -/
theorem C8_route_delete_missing_row_status :
    (route_delete_item dbEx 2).1 = none ∧
    fastapiStatus (route_delete_item dbEx 2).1 = 200 ∧
    fastapiStatus (route_delete_item dbEx 2).1 ≠ 404 ∧
    (route_delete_item dbEx 1).1 = some 204 := by decide

/-- Counterexample to C9 as stated: on a pre-state whose dataset file already
exists, add_new_row rewrites the file (the post-state file differs from the
pre-state file), while routing the same table through save_data would have
left the file unchanged and returned "File already exists" — so add_new_row
does not persist through the Storage Gateway save semantics. -/
theorem C9_add_new_row_not_save_semantics :
    (add_new_row stEx dJan5 "lunch" (some "Expense") (some "Food") (some 10)).dataFile ≠
      stEx.dataFile ∧
    (save_data
        (add_new_row stEx dJan5 "lunch" (some "Expense") (some "Food") (some 10)).cashflow_df
        stEx.dataFile none).1 = stEx.dataFile ∧
    (save_data
        (add_new_row stEx dJan5 "lunch" (some "Expense") (some "Food") (some 10)).cashflow_df
        stEx.dataFile none).2 = "File already exists" := by decide

/-- C9 as amended: for any session whose frame has the required columns,
add_new_row appends exactly one row — the supplied values zipped positionally
against [Date, Desc, Label, Category, Total] — and persists the resulting
table by writing its CSV serialization directly to the data path,
unconditionally overwriting whatever file state was there, rather than going
through save_data's AlreadyExists-refusing semantics. -/
theorem C9_add_new_row_appends_and_writes (st : CashflowState) (date : Date)
    (desc : String) (label category : Option String) (total : Option Int)
    (h : st.cashflow_df.columns = REQUIRED_COLUMNS) :
    (add_new_row st date desc label category total).cashflow_df.columns =
      REQUIRED_COLUMNS ∧
    (add_new_row st date desc label category total).cashflow_df.rows =
      st.cashflow_df.rows ++
        [[Cell.date date, Cell.str desc, optStrCell label, optStrCell category,
          optIntCell total]] ∧
    (add_new_row st date desc label category total).dataFile =
      some (to_csv (add_new_row st date desc label category total).cashflow_df) := by
  rcases st with ⟨⟨cols, rows⟩, file⟩
  have h2 : cols = REQUIRED_COLUMNS := h
  subst h2
  refine ⟨?_, ?_, rfl⟩ <;> simp [add_new_row, pdConcat, REQUIRED_COLUMNS]

/-- Witness for C9's amended statement: starting from the concrete state with
an existing header-only file and an empty frame, the appended table has the
single zipped row. -/
theorem C9_add_new_row_appends_and_writes_witness :
    (add_new_row stEx dJan5 "lunch" (some "Expense") (some "Food") (some 10)).cashflow_df.rows =
      [[Cell.date dJan5, Cell.str "lunch", Cell.str "Expense", Cell.str "Food",
        Cell.int 10]] := by
  have h := (C9_add_new_row_appends_and_writes stEx dJan5 "lunch" (some "Expense")
    (some "Food") (some 10) rfl).2.1
  simpa [stEx, optStrCell, optIntCell] using h

/-- C10: filter_by_month never mutates the table it is given — every pandas
operation it performs (copy, boolean-mask selection) leaves the receiver as it
was, so the input component of the effect-tracking embedding is returned
unchanged; the returned table is the pure result, and it is a row selection of
the input (a sublist, the whole input in the copy case). -/
theorem C10_filter_by_month_pure (df : List CRow) (tok : String) :
    (filter_by_month_eff df tok).2 = df ∧
    (filter_by_month_eff df tok).1 = filter_by_month df tok ∧
    (filter_by_month df tok).Sublist df := by
  refine ⟨?_, ?_, ?_⟩
  · unfold filter_by_month_eff pdCopy pdMaskSelect
    by_cases h : monthMapGet tok = 0 <;> simp [h]
  · unfold filter_by_month_eff filter_by_month pdCopy pdMaskSelect
    by_cases h : monthMapGet tok = 0 <;> simp [h]
  · unfold filter_by_month
    by_cases h : monthMapGet tok = 0 <;>
      simp [h, List.filter_sublist, List.Sublist.refl]

end PFA
